import Mathlib

/-!
Shallow embedding of `src/output/mod.rs` from the cs2-dumper repository.

The file under verification orchestrates dumping a captured `Results`
snapshot (buttons, interfaces, offsets, schemas plus a timestamp) into
17 output files (4 collections x 4 formats, plus `info.json`), and holds
the small pure helpers `sanitize_name` and `format_module_name` as well as
the best-effort build-number reader `read_build_number`.

External collaborators (the `chrono` timestamp, the memflow process
handle, the four per-collection encoder modules, the `Formatter` sink and
the filesystem) are modelled at their interface boundary: as parameters
supplying the values and outcomes the orchestration code consumes.
-/

/-- Model of the crate error type (`crate::error::Error`). The concrete
variants are external to the file under verification; only `Other` is
constructed here (by `read_build_number`), all other errors arrive from
the environment. -/
inductive Error where
  | other : String → Error
  | io : String → Error
deriving DecidableEq, Repr

/-- Model of `chrono::DateTime<Utc>` at the interface boundary: the code
only ever renders a timestamp through its `Display` impl (in the banner)
and through `to_rfc3339` (in `info.json`), so the model carries exactly
those two renderings. -/
structure DateTime where
  display : String
  rfc3339 : String
deriving DecidableEq, Repr

/-- Model of `analysis::Offset` at the interface boundary: the code under
verification uses only its `name` and numeric `value` fields
(`read_build_number`). -/
structure Offset where
  name : String
  value : Nat
deriving DecidableEq, Repr

/-- Model of `analysis::OffsetMap`: an ordered mapping from module name to
an ordered sequence of offsets (the spec fixes insertion order as
significant; iteration order is the list order). -/
def OffsetMap : Type := List (String × List Offset)

/-- Model of `Results` (the snapshot aggregate root). Buttons,
interfaces and schemas are opaque to the orchestration code, so their
element types are parameters. -/
structure Results (B I S : Type) where
  timestamp : DateTime
  buttons : List B
  interfaces : I
  offsets : List (String × List Offset)
  schemas : S

/-- Model of the `Item` tagged union: a borrowed view over exactly one of
the four collections. -/
inductive Item (B I S : Type) where
  | buttons : List B → Item B I S
  | interfaces : I → Item B I S
  | offsets : List (String × List Offset) → Item B I S
  | schemas : S → Item B I S

/-- Modelled from the spec: the four domain-encoder modules (`buttons`,
`interfaces`, `offsets`, `schemas`) are declared in `mod.rs` but their
sources are not under `src/`. Per the spec they are external collaborators
exposing, for each format, a pure fallible function
`(collection, Snapshot, indent_size) -> text or error`; for the three
source formats they render their body through `CodeGen::write_content`
(which prepends the banner), while the structured-data (json) encoder
serializes directly without a banner. The structure carries the body
text of each encoder for each format. -/
structure Encoders (B I S : Type) where
  csBody : Item B I S → Results B I S → Nat → Except Error String
  hppBody : Item B I S → Results B I S → Nat → Except Error String
  jsonOut : Item B I S → Results B I S → Nat → Except Error String
  rsBody : Item B I S → Results B I S → Nat → Except Error String

/-- The two banner lines written by `Results::write_banner`:
`writeln!(fmt, "// Generated using https://github.com/a2x/cs2-dumper")`
followed by `writeln!(fmt, "// {}\n", self.timestamp)` (note the extra
`\n` inside the second format string, producing the trailing blank
line). The `Formatter` is freshly constructed at indent level 0, so both
lines pass through verbatim. -/
def bannerText (ts : String) : String :=
  "// Generated using https://github.com/a2x/cs2-dumper\n// " ++ ts ++ "\n\n"

/-- Model of `CodeGen::write_content`: create a buffer, write the banner
(infallible on a string buffer), run the encoder callback, return the
buffer. -/
def write_content {B I S : Type} (r : Results B I S)
    (body : Except Error String) : Except Error String :=
  match body with
  | Except.error e => Except.error e
  | Except.ok s => Except.ok (bannerText r.timestamp.display ++ s)

/-- `Item::to_cs`: dispatch to the collection encoder's C# strategy,
which renders through `write_content` (banner + body). -/
def Item.to_cs {B I S : Type} (E : Encoders B I S) (it : Item B I S)
    (r : Results B I S) (indent_size : Nat) : Except Error String :=
  write_content r (E.csBody it r indent_size)

/-- `Item::to_hpp`: dispatch to the collection encoder's C++ strategy. -/
def Item.to_hpp {B I S : Type} (E : Encoders B I S) (it : Item B I S)
    (r : Results B I S) (indent_size : Nat) : Except Error String :=
  write_content r (E.hppBody it r indent_size)

/-- `Item::to_json`: dispatch to the collection encoder's JSON strategy
(no banner: the json encoders do not use `write_content`). -/
def Item.to_json {B I S : Type} (E : Encoders B I S) (it : Item B I S)
    (r : Results B I S) (indent_size : Nat) : Except Error String :=
  E.jsonOut it r indent_size

/-- `Item::to_rs`: dispatch to the collection encoder's Rust strategy. -/
def Item.to_rs {B I S : Type} (E : Encoders B I S) (it : Item B I S)
    (r : Results B I S) (indent_size : Nat) : Except Error String :=
  write_content r (E.rsBody it r indent_size)

/-- Model of `Item::generate`: match on the file extension and dispatch;
the `_ => unreachable!()` arm is modelled as `none` (a panic, not an
error value). -/
def Item.generate {B I S : Type} (E : Encoders B I S) (it : Item B I S)
    (r : Results B I S) (indent_size : Nat) (file_ext : String) :
    Option (Except Error String) :=
  match file_ext with
  | "cs" => some (Item.to_cs E it r indent_size)
  | "hpp" => some (Item.to_hpp E it r indent_size)
  | "json" => some (Item.to_json E it r indent_size)
  | "rs" => some (Item.to_rs E it r indent_size)
  | _ => none

/-- Model of `sanitize_name`:
`name.replace(|c: char| !c.is_alphanumeric(), "_")` replaces every
non-alphanumeric character with one underscore, character by character.
(Alphanumeric is modelled via `Char.isAlphanum`.) -/
def sanitize_name (name : String) : String :=
  String.mk (name.data.map (fun c => if c.isAlphanum then c else '_'))

/-- Model of `str::strip_suffix` at the character level: if the string
ends with the suffix, remove that one trailing occurrence, else `None`. -/
def strip_suffix (s suffix : String) : Option String :=
  if suffix.data.isSuffixOf s.data then
    some (String.mk (s.data.take (s.data.length - suffix.data.length)))
  else
    none

/-- Model of `format_module_name`. `env::consts::OS` is a compile-time
constant of the host platform, modelled as the parameter `os`. The two
`panic!`/`unwrap` paths (unsupported platform, missing suffix) are
modelled as `none`: the function aborts rather than returning a value. -/
def format_module_name (os : String) (module_name : String) : Option String :=
  match os with
  | "linux" => strip_suffix module_name ".so"
  | "windows" => strip_suffix module_name ".dll"
  | _ => none

/-- Model of the memflow process handle at its interface boundary:
`module_by_name` yields a module base address or fails, `read` yields the
4-byte value at an address or fails (both failures are converted to
`Option` by `.ok()` in the source). -/
structure Process where
  module_by_name : String → Option Nat
  read : Nat → Option Nat

/-- One module's build-number attempt, the closure body inside
`read_build_number`'s `find_map`: find the first offset named
"dwBuildNumber" in this module, then resolve the module base and read at
`base + offset.value`; any failure makes this module yield `none`. -/
def buildAttempt (proc : Process) (mo : String × List Offset) : Option Nat :=
  (mo.2.find? (fun o => o.name == "dwBuildNumber")).bind (fun offset =>
    (proc.module_by_name mo.1).bind (fun module_base =>
      proc.read (module_base + offset.value)))

/-- Model of `Results::read_build_number`: `find_map` over the offsets
map in iteration order with the per-module attempt, `ok_or_else` an
`Error::Other`. -/
def read_build_number {B I S : Type} (proc : Process) (r : Results B I S) :
    Except Error Nat :=
  match r.offsets.findSome? (buildAttempt proc) with
  | some v => Except.ok v
  | none => Except.error (Error.other "unable to read build number")

/-- The build number that `dump_info_file` embeds:
`self.read_build_number(process).unwrap_or(0)`. -/
def buildNumberOf {B I S : Type} (proc : Process) (r : Results B I S) : Nat :=
  match read_build_number proc r with
  | Except.ok v => v
  | Except.error _ => 0

/-- Model of `serde_json::to_string_pretty` on the `info` record built by
`json!`: pretty-printed with two-space indent, keys in `serde_json`'s
default (sorted) order: `build_number` before `timestamp`. Serialization
of this record cannot fail. -/
def to_string_pretty (ts : String) (bn : Nat) : String :=
  "\x7b\n  \"build_number\": " ++ toString bn ++
    ",\n  \"timestamp\": \"" ++ ts ++ "\"\n\x7d"

/-- Model of the filesystem boundary: `fs::write(path, content)` either
succeeds or fails with an I/O error chosen by the environment. -/
structure FS where
  write : String → String → Except Error Unit

/-- The path `out_dir.join(format!("{}.{}", file_name, file_ext))`. -/
def filePath (out_dir file_name file_ext : String) : String :=
  out_dir ++ "/" ++ file_name ++ "." ++ file_ext

/-- Model of `Results::dump_file`: build the path and write the content. -/
def dump_file (fs : FS) (out_dir file_name file_ext content : String) :
    Except Error Unit :=
  fs.write (filePath out_dir file_name file_ext) content

/-- The content of `info.json` as serialized by `dump_info_file`. -/
def infoContent {B I S : Type} (proc : Process) (r : Results B I S) : String :=
  to_string_pretty r.timestamp.rfc3339 (buildNumberOf proc r)

/-- Model of `Results::dump_info_file`: serialize
`{timestamp: rfc3339, build_number: read_build_number().unwrap_or(0)}`
and write it to `info.json`. -/
def dump_info_file {B I S : Type} (fs : FS) (proc : Process)
    (r : Results B I S) (out_dir : String) : Except Error Unit :=
  dump_file fs out_dir "info" "json" (infoContent proc r)

/-- The `items` array in `dump_all`, in source order. -/
def items {B I S : Type} (r : Results B I S) : List (String × Item B I S) :=
  [("buttons", Item.buttons r.buttons),
   ("interfaces", Item.interfaces r.interfaces),
   ("offsets", Item.offsets r.offsets),
   ("schemas", Item.schemas r.schemas)]

/-- The `file_exts` array in `dump_all`, in source order. -/
def file_exts : List String := ["cs", "hpp", "json", "rs"]

/-- The inner `for ext in file_exts` loop of `dump_all` for one
collection: render, then write, propagating the first error (`?`) and
recording each successfully written `(path, content)` pair in order.
A `none` result models a panic escaping from `Item::generate`. -/
def extLoop {B I S : Type} (E : Encoders B I S) (fs : FS)
    (r : Results B I S) (indent_size : Nat) (out_dir file_name : String)
    (it : Item B I S) :
    List String → List (String × String) →
    Option (Except Error Unit × List (String × String))
  | [], acc => some (Except.ok (), acc)
  | ext :: rest, acc =>
    match Item.generate E it r indent_size ext with
    | none => none
    | some (Except.error e) => some (Except.error e, acc)
    | some (Except.ok content) =>
      match dump_file fs out_dir file_name ext content with
      | Except.error e => some (Except.error e, acc)
      | Except.ok _ =>
        extLoop E fs r indent_size out_dir file_name it rest
          (acc ++ [(filePath out_dir file_name ext, content)])

/-- The outer `for (file_name, item) in &items` loop of `dump_all`. -/
def itemLoop {B I S : Type} (E : Encoders B I S) (fs : FS)
    (r : Results B I S) (indent_size : Nat) (out_dir : String) :
    List (String × Item B I S) → List (String × String) →
    Option (Except Error Unit × List (String × String))
  | [], acc => some (Except.ok (), acc)
  | (file_name, it) :: rest, acc =>
    match extLoop E fs r indent_size out_dir file_name it file_exts acc with
    | none => none
    | some (Except.error e, acc') => some (Except.error e, acc')
    | some (Except.ok _, acc') =>
      itemLoop E fs r indent_size out_dir rest acc'

/-- Model of `Results::dump_all`: the nested render-and-write loops over
the four collections and four extensions, then `dump_info_file`. The
value is `none` if a panic escaped, otherwise the result of the run
together with the ordered trace of files actually written. -/
def dump_all {B I S : Type} (E : Encoders B I S) (fs : FS) (proc : Process)
    (r : Results B I S) (out_dir : String) (indent_size : Nat) :
    Option (Except Error Unit × List (String × String)) :=
  match itemLoop E fs r indent_size out_dir (items r) [] with
  | none => none
  | some (Except.error e, acc) => some (Except.error e, acc)
  | some (Except.ok _, acc) =>
    match dump_info_file fs proc r out_dir with
    | Except.error e => some (Except.error e, acc)
    | Except.ok _ =>
      some (Except.ok (), acc ++ [(filePath out_dir "info" "json", infoContent proc r)])

/-- The 17 file paths `dump_all` produces on success, in write order:
`<collection>.<ext>` for the four collections and four extensions (both
in source order), then `info.json`. -/
def allPaths (out_dir : String) : List String :=
  [filePath out_dir "buttons" "cs", filePath out_dir "buttons" "hpp",
   filePath out_dir "buttons" "json", filePath out_dir "buttons" "rs",
   filePath out_dir "interfaces" "cs", filePath out_dir "interfaces" "hpp",
   filePath out_dir "interfaces" "json", filePath out_dir "interfaces" "rs",
   filePath out_dir "offsets" "cs", filePath out_dir "offsets" "hpp",
   filePath out_dir "offsets" "json", filePath out_dir "offsets" "rs",
   filePath out_dir "schemas" "cs", filePath out_dir "schemas" "hpp",
   filePath out_dir "schemas" "json", filePath out_dir "schemas" "rs",
   filePath out_dir "info" "json"]

/-! ## Concrete fixtures (used by witness and counterexample theorems) -/

/-- A sample timestamp value. -/
def sampleTs : DateTime :=
  ⟨"2024-01-01 00:00:00 UTC", "2024-01-01T00:00:00+00:00"⟩

/-- A sample snapshot with one offsets module holding `dwBuildNumber`. -/
def sampleR : Results Unit Unit Unit :=
  ⟨sampleTs, [], (), [("client.so", [⟨"dwBuildNumber", 16⟩])], ()⟩

/-- Sample encoder bodies: constant text per format. -/
def sampleE : Encoders Unit Unit Unit :=
  ⟨fun _ _ _ => Except.ok "cs-body", fun _ _ _ => Except.ok "hpp-body",
   fun _ _ _ => Except.ok "json-out", fun _ _ _ => Except.ok "rs-body"⟩

/-- A filesystem on which every write succeeds. -/
def sampleFS : FS := ⟨fun _ _ => Except.ok ()⟩

/-- A process in which `client.so` is loaded at base 1000 and address
1016 (base + the `dwBuildNumber` offset 16) reads as 14000. -/
def sampleProc : Process :=
  ⟨fun m => if m == "client.so" then some 1000 else none,
   fun a => if a == 1016 then some 14000 else none⟩

/-- The banner rendered for the sample timestamp. -/
def sampleBanner : String := bannerText sampleTs.display

/-- The 17 `(path, content)` pairs that `dump_all` writes for the sample
fixtures into directory `"out"`. -/
def sampleTrace : List (String × String) :=
  [(filePath "out" "buttons" "cs", sampleBanner ++ "cs-body"),
   (filePath "out" "buttons" "hpp", sampleBanner ++ "hpp-body"),
   (filePath "out" "buttons" "json", "json-out"),
   (filePath "out" "buttons" "rs", sampleBanner ++ "rs-body"),
   (filePath "out" "interfaces" "cs", sampleBanner ++ "cs-body"),
   (filePath "out" "interfaces" "hpp", sampleBanner ++ "hpp-body"),
   (filePath "out" "interfaces" "json", "json-out"),
   (filePath "out" "interfaces" "rs", sampleBanner ++ "rs-body"),
   (filePath "out" "offsets" "cs", sampleBanner ++ "cs-body"),
   (filePath "out" "offsets" "hpp", sampleBanner ++ "hpp-body"),
   (filePath "out" "offsets" "json", "json-out"),
   (filePath "out" "offsets" "rs", sampleBanner ++ "rs-body"),
   (filePath "out" "schemas" "cs", sampleBanner ++ "cs-body"),
   (filePath "out" "schemas" "hpp", sampleBanner ++ "hpp-body"),
   (filePath "out" "schemas" "json", "json-out"),
   (filePath "out" "schemas" "rs", sampleBanner ++ "rs-body"),
   (filePath "out" "info" "json", infoContent sampleProc sampleR)]

/-- A process in which the first module holding `dwBuildNumber`
(`a.so`) cannot be resolved, while `b.so` resolves to base 100 and
address 105 reads as 42. -/
def c3Proc : Process :=
  ⟨fun m => if m == "b.so" then some 100 else none,
   fun a => if a == 105 then some 42 else none⟩

/-- A snapshot whose offsets map holds `dwBuildNumber` in `a.so` (first,
value 0) and in `b.so` (second, value 5). -/
def c3R : Results Unit Unit Unit :=
  ⟨sampleTs, [], (),
   [("a.so", [⟨"dwBuildNumber", 0⟩]), ("b.so", [⟨"dwBuildNumber", 5⟩])], ()⟩

/-- A snapshot with an empty offsets map. -/
def c3REmpty : Results Unit Unit Unit := ⟨sampleTs, [], (), [], ()⟩

/-- A process under which, in module `m.so` (base 100), the read for the
first `dwBuildNumber` entry (offset 3, address 103) fails while the read
for the second entry (offset 9, address 109) would succeed with 99. -/
def c3TwoProc : Process :=
  ⟨fun m => if m == "m.so" then some 100 else none,
   fun a => if a == 109 then some 99 else none⟩

/-- A snapshot with a single offsets module holding two entries named
`dwBuildNumber` (offsets 3 and 9). -/
def c3TwoR : Results Unit Unit Unit :=
  ⟨sampleTs, [], (),
   [("m.so", [⟨"dwBuildNumber", 3⟩, ⟨"dwBuildNumber", 9⟩])], ()⟩

/-- A process for the C8 witness: only `engine.so` resolves (base 100),
and address 105 reads as 7. -/
def c8Proc : Process :=
  ⟨fun m => if m == "engine.so" then some 100 else none,
   fun a => if a == 105 then some 7 else none⟩

/-- A snapshot whose first `dwBuildNumber` module (`a.so`) fails to
resolve under `c8Proc` while the later `engine.so` succeeds. -/
def c8R : Results Unit Unit Unit :=
  ⟨sampleTs, [], (),
   [("a.so", [⟨"dwBuildNumber", 0⟩]), ("engine.so", [⟨"dwBuildNumber", 5⟩])], ()⟩

/-! ## Helper lemmas -/

lemma findSome?_append_none {α β : Type} (f : α → Option β)
    (l1 l2 : List α) (h : ∀ a ∈ l1, f a = none) :
    (l1 ++ l2).findSome? f = l2.findSome? f := by
  induction l1 with
  | nil => rfl
  | cons a as ih =>
    have ha : f a = none := h a (List.mem_cons_self a as)
    simp only [List.cons_append, List.findSome?_cons, ha]
    exact ih (fun x hx => h x (List.mem_cons_of_mem a hx))

lemma generate_isSome {B I S : Type} (E : Encoders B I S) (it : Item B I S)
    (r : Results B I S) (n : Nat) :
    ∀ ext ∈ file_exts, (Item.generate E it r n ext).isSome := by
  intro ext h
  simp only [file_exts, List.mem_cons, List.not_mem_nil, or_false] at h
  rcases h with rfl | rfl | rfl | rfl <;> rfl

lemma strip_suffix_append (base suf : String) :
    strip_suffix (base ++ suf) suf = some base := by
  have hd : (base ++ suf).data = base.data ++ suf.data := by
    simp [String.data_append]
  have hsfx : suf.data.isSuffixOf (base.data ++ suf.data) = true := by
    simp [List.isSuffixOf]
  simp only [strip_suffix, hd, hsfx, if_true]
  congr 1
  rw [List.length_append, Nat.add_sub_cancel, List.take_left]

/-! ## Claim theorems -/

/-- C5: `sanitize_name` is idempotent; a string of only alphanumeric
characters is returned unchanged; and `sanitize_name "Foo Bar!"` is
`"Foo_Bar_"`. -/
theorem c5_sanitize_name_idempotent (s : String) :
    sanitize_name (sanitize_name s) = sanitize_name s ∧
    ((∀ c ∈ s.data, c.isAlphanum) → sanitize_name s = s) ∧
    sanitize_name "Foo Bar!" = "Foo_Bar_" := by
  refine ⟨?_, ?_, by decide⟩
  · unfold sanitize_name
    congr 1
    rw [List.map_map]
    apply List.map_congr_left
    intro a _
    by_cases h : a.isAlphanum <;> simp [h, Function.comp]
  · intro h
    have hmap : s.data.map (fun c => if c.isAlphanum then c else '_') = s.data := by
      have := List.map_congr_left (l := s.data)
        (f := fun c => if c.isAlphanum then c else '_') (g := id) ?_
      · rw [this, List.map_id]
      · intro a ha
        simp [h a ha]
    unfold sanitize_name
    rw [hmap]

/-- C5 witness: the idempotence and alphanumeric-identity parts of
`c5_sanitize_name_idempotent` at the concrete input `"abc123"`. -/
theorem c5_sanitize_name_idempotent_witness :
    sanitize_name "abc123" = "abc123" :=
  (c5_sanitize_name_idempotent "abc123").2.1 (by decide)

/-- C9: `sanitize_name` preserves the character count, returns only
alphanumeric characters or underscores, and keeps every alphanumeric
input character unchanged at its position. -/
theorem c9_sanitize_name_shape (s : String) (i : Nat) (c : Char) :
    (sanitize_name s).length = s.length ∧
    (∀ d ∈ (sanitize_name s).data, d.isAlphanum ∨ d = '_') ∧
    (s.data[i]? = some c → c.isAlphanum → (sanitize_name s).data[i]? = some c) := by
  refine ⟨?_, ?_, ?_⟩
  · show (s.data.map (fun c => if c.isAlphanum then c else '_')).length = s.data.length
    rw [List.length_map]
  · intro d hd
    simp only [sanitize_name] at hd
    obtain ⟨a, _, rfl⟩ := List.mem_map.mp hd
    by_cases h : a.isAlphanum <;> simp [h]
  · intro h hc
    show (s.data.map (fun c => if c.isAlphanum then c else '_'))[i]? = some c
    rw [List.getElem?_map, h]
    simp [hc]

/-- C9 witness: `c9_sanitize_name_shape` applied at `"a!b"`, position 2,
character `'b'`. -/
theorem c9_sanitize_name_shape_witness :
    (sanitize_name "a!b").data[2]? = some 'b' :=
  (c9_sanitize_name_shape "a!b" 2 'b').2.2 (by decide) (by decide)

/-- C6: on linux, `format_module_name` strips a trailing `".so"` and
aborts (returns no value) when the suffix is absent; on windows the same
with `".dll"`; on every other platform it aborts for every input. -/
theorem c6_format_module_name_spec :
    (∀ base : String, format_module_name "linux" (base ++ ".so") = some base) ∧
    (∀ name : String, ".so".data.isSuffixOf name.data = false →
      format_module_name "linux" name = none) ∧
    (∀ base : String, format_module_name "windows" (base ++ ".dll") = some base) ∧
    (∀ name : String, ".dll".data.isSuffixOf name.data = false →
      format_module_name "windows" name = none) ∧
    (∀ os name : String, os ≠ "linux" → os ≠ "windows" →
      format_module_name os name = none) := by
  refine ⟨fun base => strip_suffix_append base ".so",
    ?_, fun base => strip_suffix_append base ".dll", ?_, ?_⟩
  · intro name h
    show strip_suffix name ".so" = none
    simp [strip_suffix, h]
  · intro name h
    show strip_suffix name ".dll" = none
    simp [strip_suffix, h]
  · intro os name h1 h2
    unfold format_module_name
    split <;> simp_all

/-- C6 witness: `c6_format_module_name_spec` at concrete module names on
linux and on an unrecognized platform. -/
theorem c6_format_module_name_spec_witness :
    format_module_name "linux" ("libclient" ++ ".so") = some "libclient" ∧
    format_module_name "linux" "client" = none ∧
    format_module_name "haiku" "client.so" = none :=
  ⟨(c6_format_module_name_spec).1 "libclient",
   (c6_format_module_name_spec).2.1 "client" (by decide),
   (c6_format_module_name_spec).2.2.2.2 "haiku" "client.so"
     (by decide) (by decide)⟩

/-- C10: `format_module_name` removes exactly one trailing occurrence of
the platform suffix: `"x.so.so"` yields `"x.so"`, the bare suffix
`".so"` yields `""`, and in general `base ++ ".so"` yields `base` even
when `base` itself ends in `".so"`. -/
theorem c10_strip_exactly_one_suffix :
    format_module_name "linux" "x.so.so" = some "x.so" ∧
    format_module_name "linux" ".so" = some "" ∧
    (∀ base : String, format_module_name "linux" (base ++ ".so") = some base) ∧
    format_module_name "windows" "d.dll.dll" = some "d.dll" :=
  ⟨by decide, by decide, fun base => strip_suffix_append base ".so", by decide⟩

lemma extLoop_spec {B I S : Type} (E : Encoders B I S) (fs : FS)
    (r : Results B I S) (n : Nat) (dir name : String) (it : Item B I S) :
    ∀ (exts : List String) (acc : List (String × String)),
    (∀ ext ∈ exts, (Item.generate E it r n ext).isSome) →
    ∃ res ws, extLoop E fs r n dir name it exts acc = some (res, acc ++ ws) ∧
      (res = Except.ok () → ws.map Prod.fst = exts.map (filePath dir name)) ∧
      (∀ e, res = Except.error e → ∃ k, k < exts.length ∧
        ws.map Prod.fst = (exts.take k).map (filePath dir name)) ∧
      (∀ p ∈ ws, fs.write p.1 p.2 = Except.ok ()) := by
  intro exts
  induction exts with
  | nil =>
    intro acc _
    refine ⟨Except.ok (), [], by simp [extLoop], by simp, ?_, by simp⟩
    intro e he
    simp at he
  | cons ext rest ih =>
    intro acc h
    have hg := h ext (List.mem_cons_self ext rest)
    rcases hgen : Item.generate E it r n ext with _ | g
    · rw [hgen] at hg
      simp at hg
    rcases g with e | content
    · refine ⟨Except.error e, [], by simp [extLoop, hgen], ?_, ?_, by simp⟩
      · intro he
        simp at he
      · intro e' _
        exact ⟨0, by simp, by simp⟩
    · rcases hw : dump_file fs dir name ext content with e | u
      · refine ⟨Except.error e, [], by simp [extLoop, hgen, hw], ?_, ?_, by simp⟩
        · intro he
          simp at he
        · intro e' _
          exact ⟨0, by simp, by simp⟩
      · obtain ⟨res, ws, heq, hok, herr, hwr⟩ :=
          ih (acc ++ [(filePath dir name ext, content)])
            (fun x hx => h x (List.mem_cons_of_mem ext hx))
        refine ⟨res, (filePath dir name ext, content) :: ws, ?_, ?_, ?_, ?_⟩
        · simp only [extLoop, hgen, hw]
          rw [heq]
          simp
        · intro hres
          simp [hok hres]
        · intro e' he'
          obtain ⟨k, hk, hws⟩ := herr e' he'
          refine ⟨k + 1, by simpa using hk, ?_⟩
          simp [List.take_succ_cons, hws]
        · intro p hp
          rcases List.mem_cons.mp hp with rfl | hp'
          · exact hw
          · exact hwr p hp'

lemma itemLoop_spec {B I S : Type} (E : Encoders B I S) (fs : FS)
    (r : Results B I S) (n : Nat) (dir : String) :
    ∀ (its : List (String × Item B I S)) (acc : List (String × String)),
    ∃ res ws, itemLoop E fs r n dir its acc = some (res, acc ++ ws) ∧
      (res = Except.ok () → ws.map Prod.fst =
        its.flatMap (fun fi => file_exts.map (filePath dir fi.1))) ∧
      (∀ e, res = Except.error e → ∃ k,
        k < (its.flatMap (fun fi => file_exts.map (filePath dir fi.1))).length ∧
        ws.map Prod.fst =
          (its.flatMap (fun fi => file_exts.map (filePath dir fi.1))).take k) ∧
      (∀ p ∈ ws, fs.write p.1 p.2 = Except.ok ()) := by
  intro its
  induction its with
  | nil =>
    intro acc
    refine ⟨Except.ok (), [], by simp [itemLoop], by simp, ?_, by simp⟩
    intro e he
    simp at he
  | cons fi rest ih =>
    intro acc
    obtain ⟨res1, ws1, heq1, hok1, herr1, hwr1⟩ :=
      extLoop_spec E fs r n dir fi.1 fi.2 file_exts acc
        (generate_isSome E fi.2 r n)
    rcases res1 with e | u
    · refine ⟨Except.error e, ws1, ?_, ?_, ?_, hwr1⟩
      · simp only [itemLoop]
        rw [heq1]
      · intro he
        simp at he
      · intro e' _
        obtain ⟨k, hk, hws⟩ := herr1 e rfl
        refine ⟨k, ?_, ?_⟩
        · calc k < file_exts.length := hk
            _ ≤ _ := by
              simp only [List.flatMap_cons, List.length_append, List.length_map]
              exact Nat.le_add_right _ _
        · rw [hws, List.flatMap_cons,
            List.take_append_of_le_length (by simpa using Nat.le_of_lt hk),
            ← List.map_take]
    · obtain ⟨res2, ws2, heq2, hok2, herr2, hwr2⟩ := ih (acc ++ ws1)
      refine ⟨res2, ws1 ++ ws2, ?_, ?_, ?_, ?_⟩
      · simp only [itemLoop]
        rw [heq1]
        show itemLoop E fs r n dir rest (acc ++ ws1) = _
        rw [heq2, List.append_assoc]
      · intro hres
        simp [hok1 rfl, hok2 hres, List.flatMap_cons]
      · intro e' he'
        obtain ⟨k, hk, hws⟩ := herr2 e' he'
        refine ⟨file_exts.length + k, ?_, ?_⟩
        · simp only [List.flatMap_cons, List.length_append, List.length_map]
          exact Nat.add_lt_add_left hk _
        · have hlen : (file_exts.map (filePath dir fi.1)).length = file_exts.length := by
            simp
          rw [List.map_append, hok1 rfl, hws, List.flatMap_cons, ← hlen,
            List.take_append]
      · intro p hp
        rcases List.mem_append.mp hp with hp1 | hp2
        · exact hwr1 p hp1
        · exact hwr2 p hp2

lemma allPaths_split {B I S : Type} (dir : String) (r : Results B I S) :
    allPaths dir =
      (items r).flatMap (fun fi => file_exts.map (filePath dir fi.1)) ++
      [filePath dir "info" "json"] := by
  rfl

lemma dump_all_spec {B I S : Type} (E : Encoders B I S) (fs : FS)
    (proc : Process) (r : Results B I S) (dir : String) (n : Nat) :
    ∃ res ws, dump_all E fs proc r dir n = some (res, ws) ∧
      (res = Except.ok () → ws.map Prod.fst = allPaths dir ∧
        ∀ p ∈ ws, fs.write p.1 p.2 = Except.ok ()) ∧
      (∀ e, res = Except.error e → ∃ k, k < 17 ∧
        ws.map Prod.fst = (allPaths dir).take k) := by
  obtain ⟨res1, ws1, heq1, hok1, herr1, hwr1⟩ :=
    itemLoop_spec E fs r n dir (items r) []
  have hflat : ((items r).flatMap
      (fun fi => file_exts.map (filePath dir fi.1))).length = 16 := by
    simp [items, file_exts]
  rcases res1 with e | u
  · refine ⟨Except.error e, ws1, ?_, ?_, ?_⟩
    · simp only [dump_all, heq1]
      rfl
    · intro he
      simp at he
    · intro e' _
      obtain ⟨k, hk, hws⟩ := herr1 e rfl
      refine ⟨k, by omega, ?_⟩
      rw [hws, allPaths_split dir r,
        List.take_append_of_le_length (by omega)]
  · cases u
    rcases hinfo : dump_info_file fs proc r dir with e | u2
    · refine ⟨Except.error e, ws1, ?_, ?_, ?_⟩
      · simp only [dump_all, heq1, hinfo]
        rfl
      · intro he
        simp at he
      · intro e' _
        refine ⟨16, by omega, ?_⟩
        have h16 := hok1 rfl
        rw [h16, allPaths_split dir r, ← hflat, List.take_left]
    · cases u2
      refine ⟨Except.ok (),
        ws1 ++ [(filePath dir "info" "json", infoContent proc r)], ?_, ?_, ?_⟩
      · simp only [dump_all, heq1, hinfo]
        rfl
      · intro _
        constructor
        · have h16 := hok1 rfl
          rw [List.map_append, h16, allPaths_split dir r]
          rfl
        · intro p hp
          rcases List.mem_append.mp hp with hp1 | hp2
          · exact hwr1 p hp1
          · rcases List.mem_singleton.mp hp2 with rfl
            exact hinfo
      · intro e' he'
        simp at he'

/-- C1: for every snapshot, output directory and indent width, a
`dump_all` run that returns success has written exactly the 17 files
with the fixed names (`buttons`/`interfaces`/`offsets`/`schemas` times
`cs`/`hpp`/`json`/`rs`, plus `info.json`), each by a successful write;
and a run that returns an error has stopped at the first render-or-write
failure: the files on disk are exactly a proper prefix of the 17 (the
remaining writes were aborted, the already-written files are kept), and
the failure is surfaced as the result. -/
theorem c1_dump_all_seventeen {B I S : Type} (E : Encoders B I S) (fs : FS)
    (proc : Process) (r : Results B I S) (out_dir : String) (n : Nat)
    (res : Except Error Unit) (ws : List (String × String))
    (h : dump_all E fs proc r out_dir n = some (res, ws)) :
    (res = Except.ok () → ws.map Prod.fst = allPaths out_dir ∧
      ∀ p ∈ ws, fs.write p.1 p.2 = Except.ok ()) ∧
    (∀ e, res = Except.error e → ∃ k, k < 17 ∧
      ws.map Prod.fst = (allPaths out_dir).take k) := by
  obtain ⟨res', ws', heq, hok, herr⟩ := dump_all_spec E fs proc r out_dir n
  rw [heq] at h
  have hp := Option.some.inj h
  have hres : res' = res := congrArg Prod.fst hp
  have hws : ws' = ws := congrArg Prod.snd hp
  subst hres
  subst hws
  exact ⟨hok, herr⟩

/-- C1 witness: `c1_dump_all_seventeen` on the sample fixtures (all
renders and writes succeed): the run writes exactly the 17 paths. -/
theorem c1_dump_all_seventeen_witness :
    sampleTrace.map Prod.fst = allPaths "out" :=
  ((c1_dump_all_seventeen sampleE sampleFS sampleProc sampleR "out" 2
    (Except.ok ()) sampleTrace rfl).1 rfl).1

/-- C2: rendering is deterministic. The render path
(`Item::generate` and the encoders it dispatches to) is modelled as a
pure function of exactly (collection view, snapshot, indent width,
format); two invocations on the same inputs that produce text produce
the same text. -/
theorem c2_generate_deterministic {B I S : Type} (E : Encoders B I S)
    (it : Item B I S) (r : Results B I S) (indent_size : Nat)
    (file_ext : String) (s₁ s₂ : String)
    (h₁ : Item.generate E it r indent_size file_ext = some (Except.ok s₁))
    (h₂ : Item.generate E it r indent_size file_ext = some (Except.ok s₂)) :
    s₁ = s₂ := by
  rw [h₁] at h₂
  exact Except.ok.inj (Option.some.inj h₂)

/-- C2 witness: two renders of the sample buttons collection as C# both
produce the banner followed by the encoder body. -/
theorem c2_generate_deterministic_witness :
    sampleBanner ++ "cs-body" = sampleBanner ++ "cs-body" :=
  c2_generate_deterministic sampleE (Item.buttons []) sampleR 4 "cs"
    (sampleBanner ++ "cs-body") (sampleBanner ++ "cs-body") rfl rfl

/-- C7: for every format identifier in the fixed set passed by
`dump_all` (`file_exts = ["cs", "hpp", "json", "rs"]`), `Item::generate`
resolves to a rendering strategy without hitting the
`unreachable!` branch (modelled as `none`), and consequently a whole
`dump_all` run never panics. -/
theorem c7_generate_never_unreachable {B I S : Type} (E : Encoders B I S)
    (r : Results B I S) (n : Nat) :
    (∀ ext ∈ file_exts, ∀ it : Item B I S,
      (Item.generate E it r n ext).isSome) ∧
    (∀ (fs : FS) (proc : Process) (out_dir : String),
      (dump_all E fs proc r out_dir n).isSome) := by
  constructor
  · intro ext hext it
    exact generate_isSome E it r n ext hext
  · intro fs proc out_dir
    obtain ⟨res, ws, heq, -, -⟩ := dump_all_spec E fs proc r out_dir n
    rw [heq]
    rfl

/-- C7 witness: `c7_generate_never_unreachable` at the "rs" extension
and at a full sample `dump_all` run. -/
theorem c7_generate_never_unreachable_witness :
    (Item.generate sampleE (Item.buttons []) sampleR 4 "rs").isSome ∧
    (dump_all sampleE sampleFS sampleProc sampleR "out" 4).isSome :=
  ⟨(c7_generate_never_unreachable sampleE sampleR 4).1 "rs" (by decide)
      (Item.buttons []),
   (c7_generate_never_unreachable sampleE sampleR 4).2 sampleFS sampleProc
      "out"⟩

/-- C3 counterexample: the claim says that when the module of the first
entry named "dwBuildNumber" (in iteration order) cannot be resolved, the
build number written is 0. In `c3R` the first matching entry is in
module `a.so`, which `c3Proc` cannot resolve — yet the build number is
42, read from the later module `b.so`: `find_map` skips a module whose
resolution or read fails and keeps searching. -/
theorem c3_counterexample :
    c3R.offsets.head?.map Prod.fst = some "a.so" ∧
    c3R.offsets.head?.bind
      (fun mo => mo.2.find? (fun o => o.name == "dwBuildNumber")) =
        some ⟨"dwBuildNumber", 0⟩ ∧
    c3Proc.module_by_name "a.so" = none ∧
    buildNumberOf c3Proc c3R = 42 ∧ (42 : Nat) ≠ 0 := by
  refine ⟨rfl, rfl, rfl, by decide, by decide⟩

/-- C3 (amended): the lookup searches the offsets map in iteration
order; in each module it attempts only that module's first entry named
"dwBuildNumber" (resolving the module base, then reading 4 bytes at
`base + offset.value`), and a module with no matching entry, an
unresolvable base, or a failed read yields nothing for that module, the
search continuing with later modules. The build number written to
`info.json` is the value of the first module whose attempt succeeds; if
no module's attempt succeeds — in particular if no module's offsets
contain an entry named "dwBuildNumber" — it is 0, and the lookup never
aborts the dump: `dump_info_file` always proceeds to write `info.json`
with the (possibly defaulted) value. -/
theorem c3_build_number_best_effort {B I S : Type} (proc : Process)
    (r : Results B I S) (fs : FS) (out_dir : String) :
    (∀ (m : String) (offs : List Offset) (o : Offset),
      offs.find? (fun o => o.name == "dwBuildNumber") = some o →
      buildAttempt proc (m, offs) =
        (proc.module_by_name m).bind
          (fun base => proc.read (base + o.value))) ∧
    (∀ (m : String) (offs : List Offset),
      offs.find? (fun o => o.name == "dwBuildNumber") = none →
      buildAttempt proc (m, offs) = none) ∧
    (∀ (pre post : List (String × List Offset))
      (mo : String × List Offset) (v : Nat),
      r.offsets = pre ++ mo :: post →
      (∀ p ∈ pre, buildAttempt proc p = none) →
      buildAttempt proc mo = some v →
      buildNumberOf proc r = v) ∧
    ((∀ mo ∈ r.offsets, buildAttempt proc mo = none) →
      buildNumberOf proc r = 0) ∧
    ((∀ mo ∈ r.offsets, ∀ o ∈ mo.2, o.name ≠ "dwBuildNumber") →
      buildNumberOf proc r = 0) ∧
    dump_info_file fs proc r out_dir =
      dump_file fs out_dir "info" "json"
        (to_string_pretty r.timestamp.rfc3339 (buildNumberOf proc r)) := by
  have key : (∀ mo ∈ r.offsets, buildAttempt proc mo = none) →
      buildNumberOf proc r = 0 := by
    intro hall
    unfold buildNumberOf read_build_number
    rw [List.findSome?_eq_none_iff.mpr hall]
  refine ⟨?_, ?_, ?_, key, ?_, rfl⟩
  · intro m offs o hfind
    show (offs.find? (fun o => o.name == "dwBuildNumber")).bind
        (fun offset => (proc.module_by_name m).bind
          (fun module_base => proc.read (module_base + offset.value))) =
      (proc.module_by_name m).bind (fun base => proc.read (base + o.value))
    rw [hfind]
    rfl
  · intro m offs hfind
    simp [buildAttempt, hfind]
  · intro pre post mo v hr hpre hmo
    have hfind : r.offsets.findSome? (buildAttempt proc) = some v := by
      rw [hr, findSome?_append_none _ _ _ hpre, List.findSome?_cons, hmo]
    unfold buildNumberOf read_build_number
    rw [hfind]
  · intro h
    apply key
    intro mo hmo
    have hfind : mo.2.find? (fun o => o.name == "dwBuildNumber") = none := by
      apply List.find?_eq_none.mpr
      intro o ho
      simpa using h mo hmo o ho
    simp [buildAttempt, hfind]

/-- C3 witness: `c3_build_number_best_effort` exercised at concrete
inputs: in `c3TwoR`'s single module only the first "dwBuildNumber"
entry (offset 3) is attempted, so the lookup yields 0 even though the
module's second entry (offset 9) would read 99; and on `c3R` the first
module whose attempt succeeds (`b.so`) supplies build number 42. -/
theorem c3_build_number_best_effort_witness :
    buildAttempt c3TwoProc
        ("m.so", [⟨"dwBuildNumber", 3⟩, ⟨"dwBuildNumber", 9⟩]) =
      (c3TwoProc.module_by_name "m.so").bind
        (fun base => c3TwoProc.read (base + 3)) ∧
    buildNumberOf c3TwoProc c3TwoR = 0 ∧
    buildNumberOf c3Proc c3R = 42 :=
  ⟨(c3_build_number_best_effort c3TwoProc c3TwoR sampleFS "out").1 "m.so"
      [⟨"dwBuildNumber", 3⟩, ⟨"dwBuildNumber", 9⟩] ⟨"dwBuildNumber", 3⟩
      (by decide),
   (c3_build_number_best_effort c3TwoProc c3TwoR sampleFS "out").2.2.2.1
      (by decide),
   (c3_build_number_best_effort c3Proc c3R sampleFS "out").2.2.1
      [("a.so", [⟨"dwBuildNumber", 0⟩])] []
      ("b.so", [⟨"dwBuildNumber", 5⟩]) 42 rfl (by decide) (by decide)⟩

/-- C8: when every module before `(m, offs)` in the offsets map yields
nothing (no "dwBuildNumber" entry, or an entry whose module resolution
or memory read fails), and `(m, offs)`'s first "dwBuildNumber" entry
resolves and reads successfully to `v`, then `read_build_number`
continues past the failing modules and returns `v`, which is the value
written to `info.json`. -/
theorem c8_later_module_recovers {B I S : Type} (proc : Process)
    (r : Results B I S) (pre post : List (String × List Offset))
    (m : String) (offs : List Offset) (v : Nat)
    (hr : r.offsets = pre ++ (m, offs) :: post)
    (hpre : ∀ mo ∈ pre, buildAttempt proc mo = none)
    (hsucc : buildAttempt proc (m, offs) = some v) :
    read_build_number proc r = Except.ok v ∧ buildNumberOf proc r = v := by
  have hfind : r.offsets.findSome? (buildAttempt proc) = some v := by
    rw [hr, findSome?_append_none _ _ _ hpre, List.findSome?_cons, hsucc]
  constructor
  · unfold read_build_number
    rw [hfind]
  · unfold buildNumberOf read_build_number
    rw [hfind]

/-- C8 witness: under `c8Proc`, the earlier module `a.so` holds a
"dwBuildNumber" entry but cannot be resolved; the later `engine.so`
resolves and its read yields 7, which becomes the build number. -/
theorem c8_later_module_recovers_witness :
    read_build_number c8Proc c8R = Except.ok 7 ∧
    buildNumberOf c8Proc c8R = 7 :=
  c8_later_module_recovers c8Proc c8R [("a.so", [⟨"dwBuildNumber", 0⟩])] []
    "engine.so" [⟨"dwBuildNumber", 5⟩] 7 rfl (by decide) (by decide)

/-- C4: every successful render in one of the three source formats
(cs, hpp, rs) begins with the two banner lines — the fixed attribution
comment and a `//` comment holding the snapshot's timestamp — followed
by a blank line (so its first two non-blank lines are exactly those two
comments); the json render is the encoder's serialization passed through
unchanged with no banner prepended, hence it contains the literal banner
text only if the (out-of-scope) serializer's own output already does. -/
theorem c4_banner_per_format {B I S : Type} (E : Encoders B I S)
    (it : Item B I S) (r : Results B I S) (n : Nat) :
    (∀ ext ∈ ["cs", "hpp", "rs"], ∀ s,
      Item.generate E it r n ext = some (Except.ok s) →
      ∃ rest, s =
        "// Generated using https://github.com/a2x/cs2-dumper\n// " ++
          r.timestamp.display ++ "\n\n" ++ rest) ∧
    Item.generate E it r n "json" = some (E.jsonOut it r n) ∧
    (∀ b, E.jsonOut it r n = Except.ok b →
      ¬ (bannerText r.timestamp.display).data <:+: b.data →
      ∀ s, Item.generate E it r n "json" = some (Except.ok s) →
      ¬ (bannerText r.timestamp.display).data <:+: s.data) := by
  refine ⟨?_, rfl, ?_⟩
  · intro ext hext s hgen
    have hsplit : ∀ body : Except Error String,
        write_content r body = Except.ok s →
        ∃ rest, s =
          "// Generated using https://github.com/a2x/cs2-dumper\n// " ++
            r.timestamp.display ++ "\n\n" ++ rest := by
      intro body hwc
      rcases body with e | b
      · simp [write_content] at hwc
      · refine ⟨b, ?_⟩
        have : bannerText r.timestamp.display ++ b = s := by
          simpa [write_content] using hwc
        rw [← this, bannerText]
    simp only [List.mem_cons, List.not_mem_nil, or_false] at hext
    rcases hext with rfl | rfl | rfl
    · exact hsplit (E.csBody it r n) (Option.some.inj hgen)
    · exact hsplit (E.hppBody it r n) (Option.some.inj hgen)
    · exact hsplit (E.rsBody it r n) (Option.some.inj hgen)
  · intro b hb hninf s hs
    have hsb : (Except.ok b : Except Error String) = Except.ok s := by
      rw [← hb]
      exact Option.some.inj hs
    rw [← Except.ok.inj hsb]
    exact hninf

/-- C4 witness: `c4_banner_per_format` on the sample json encoder
output, which does not contain the banner text. -/
theorem c4_banner_per_format_witness :
    ¬ (bannerText sampleTs.display).data <:+: "json-out".data :=
  (c4_banner_per_format sampleE (Item.buttons []) sampleR 4).2.2
    "json-out" rfl (by decide) "json-out" rfl
